import Mathlib

/-!
Shallow embedding of `rfp.py` from the pysapweb repository.

The module drives a Selenium browser through MIT SAPweb's "Request for
Payment" pages.  We model the browser session as a script of DOM snapshots
indexed by the number of mutating interactions performed so far, and each
page-object method as a computation in a state-plus-exceptions monad that
records every mutating interaction (navigate, click, clear, send-keys) in a
trace.  Read-only queries (find element, read text/attribute, visibility)
consult the current snapshot and record nothing, matching Selenium's
semantics where only interactions change the page.

Python exceptions are modelled by an error type; `try/except` blocks keep
the state reached at the point of the exception, exactly as in Python.
-/

namespace Pysapweb

/-- A DOM element as observed through the browser driver: its rendered text,
its `value` attribute, whether it is displayed, and whether it is selected. -/
structure Elem where
  text : String := ""
  value : String := ""
  displayed : Bool := true
  selected : Bool := false
deriving DecidableEq, Repr

/-- One snapshot of the page: the document title and the answers the driver
gives to locator queries.  `css`/`xpath` model `find_element_by_*`
(`none` means the driver raises `NoSuchElementException`), `cssAll` models
`find_elements_by_css_selector` (empty list when nothing matches), and
`cssWithin outer i inner` models `find_elements_by_css_selector inner`
invoked on the `i`-th element matched by `outer`. -/
structure Dom where
  title : String
  css : String → Option Elem
  cssAll : String → List Elem
  xpath : String → Option Elem
  cssWithin : String → Nat → String → List Elem

/-- The Python exceptions that the code under verification can raise. -/
inductive Err where
  | noSuchElement
  | failedTransition
  | assertionError
  | indexError (msg : String)
  | typeError
  | nameError
  | attributeError
deriving DecidableEq, Repr

/-- Browser-mutating interactions, recorded in order of execution.
`clickIndex sel i` is a click on the `i`-th element matched by `sel`. -/
inductive Event where
  | navigate (url : String)
  | click (sel : String)
  | clickIndex (sel : String) (i : Nat)
  | clickXpath (xp : String)
  | clear (sel : String)
  | sendKeys (sel : String) (keys : String)
deriving DecidableEq, Repr

/-- The browser session: a script assigning a DOM snapshot to every instant
(the page may change after each mutating event), the number of mutating
events performed so far, and the trace of those events. -/
structure Session where
  script : Nat → Dom
  time : Nat
  trace : List Event

/-- The effect monad of the embedding: session state plus Python exceptions.
An exception keeps the session reached so far (side effects persist across
`raise`, as in Python). -/
def M (α : Type) : Type := Session → Except Err α × Session

def M.pure (a : α) : M α := fun s => (.ok a, s)

def M.bind (x : M α) (f : α → M β) : M β := fun s =>
  match x s with
  | (.ok a, s₁) => f a s₁
  | (.error e, s₁) => (.error e, s₁)

instance : Monad M where
  pure := M.pure
  bind := M.bind

def M.throw (e : Err) : M α := fun s => (.error e, s)

/-- `M.attempt x sel h` models `try: x except E: h` where `sel` recognises
the caught exception class `E`. -/
def M.attempt (x : M α) (sel : Err → Bool) (handler : M α) : M α := fun s =>
  match x s with
  | (.ok a, s₁) => (.ok a, s₁)
  | (.error e, s₁) => if sel e then handler s₁ else (.error e, s₁)

/-- Python `assert`. -/
def massert (b : Bool) : M Unit := if b then M.pure () else M.throw .assertionError

/-- The DOM snapshot currently shown by the browser. -/
def getDom : M Dom := fun s => (.ok (s.script s.time), s)

/-- Record one mutating interaction; the scripted DOM advances. -/
def emit (e : Event) : M Unit := fun s =>
  (.ok (), { s with time := s.time + 1, trace := s.trace ++ [e] })

/-- `find_element_by_css_selector`: raises `NoSuchElementException` when the
selector matches nothing. -/
def findCss (sel : String) : M Elem := fun s =>
  match (s.script s.time).css sel with
  | some e => (.ok e, s)
  | none => (.error .noSuchElement, s)

/-- `find_elements_by_css_selector`: empty list when nothing matches. -/
def findAllCss (sel : String) : M (List Elem) := fun s =>
  (.ok ((s.script s.time).cssAll sel), s)

/-- `find_element_by_xpath`. -/
def findXpath (xp : String) : M Elem := fun s =>
  match (s.script s.time).xpath xp with
  | some e => (.ok e, s)
  | none => (.error .noSuchElement, s)

/-- Find an element by CSS selector and click it. -/
def clickCss (sel : String) : M Unit := do
  let _ ← findCss sel
  emit (.click sel)

/-- Whether `c` is whitespace (the characters `str.strip` removes). -/
def isSpaceChar (c : Char) : Bool :=
  c == ' ' || c == '\t' || c == '\n' || c == '\r'

/-- Python `str.strip`: drop leading and trailing whitespace. -/
def strip (s : String) : String :=
  String.mk (((s.data.dropWhile isSpaceChar).reverse.dropWhile isSpaceChar).reverse)

/-- Whether `pat` is a prefix of `l` (character lists). -/
def charPrefix : List Char → List Char → Bool
  | [], _ => true
  | _ :: _, [] => false
  | a :: as, b :: bs => a == b && charPrefix as bs

/-- Whether `pat` occurs as a contiguous sublist of `l`. -/
def charInfix (pat : List Char) : List Char → Bool
  | [] => charPrefix pat []
  | c :: cs => charPrefix pat (c :: cs) || charInfix pat cs

/-- Python `sub in s` on strings. -/
def strContains (s sub : String) : Bool := charInfix sub.data s.data

/-- The page-object variants of the module (one per class; `RequestRfp` and
`ViewAndEdit` carry the address-group index chosen at construction from the
page title). -/
inductive Page where
  | inbox
  | searchForPayee
  | requestRfp (index : Nat)
  | viewAndEdit (index : Nat)
  | viewOnly
  | attachReceipt
  | sendTo
  | search
deriving DecidableEq, Repr

/-! ## BasePage helpers (`BasePage` in `rfp.py`) -/

/-- `BasePage.errors`: texts of `.portlet-msg-error` elements followed by
texts of `label.jqerror` elements. -/
def errors : M (List String) := do
  let es ← findAllCss ".portlet-msg-error"
  let es2 ← findAllCss "label.jqerror"
  M.pure (es.map Elem.text ++ es2.map Elem.text)

/-- `BasePage._pre_transition`: raise `FailedTransitionError` when the page
shows errors. -/
def pre_transition : M Unit := do
  let es ← errors
  if es.isEmpty then M.pure () else M.throw .failedTransition

/-- The selector `_radio` builds for the checked member of a group. -/
def radioCheckedSel (group : String) : String :=
  "input[type=\x27radio\x27][name=\x27" ++ group ++ "\x27]:checked"

/-- The selector `_radio` builds for the button of a group with a value. -/
def radioValueSel (group v : String) : String :=
  "input[type=\x27radio\x27][name=\x27" ++ group ++ "\x27][value=\x27" ++ v ++ "\x27]"

/-- `BasePage._radio`, get form. -/
def radio_get (group : String) : M (Option String) :=
  M.attempt
    (do let e ← findCss (radioCheckedSel group); M.pure (some e.value))
    (· == .noSuchElement) (M.pure none)

/-- `BasePage._radio`, set form. -/
def radio_set (group v : String) : M Unit :=
  clickCss (radioValueSel group v)

/-- `BasePage._checkbox`, get form. -/
def checkbox_get (sel : String) : M Bool := do
  let e ← findCss sel
  M.pure e.selected

/-- `BasePage._checkbox`, set form: click only when the state differs, then
assert the postcondition by re-reading the live element. -/
def checkbox_set (sel : String) (v : Bool) : M Unit := do
  let e ← findCss sel
  if e.selected != v then emit (.click sel) else M.pure ()
  let e2 ← findCss sel
  massert (e2.selected == v)

/-- `BasePage._textbox`, get form (reads the `value` attribute). -/
def textbox_get (sel : String) : M String := do
  let e ← findCss sel
  M.pure e.value

/-- `BasePage._textbox`, set form: clear, then send the text. -/
def textbox_set (sel v : String) : M Unit := do
  let _ ← findCss sel
  emit (.clear sel)
  emit (.sendKeys sel v)

/-- The `option[value=...]` selector `_select` builds. -/
def selectOptionSel (frag v : String) : String :=
  "select" ++ frag ++ " option[value=\x27" ++ v ++ "\x27]"

/-- `BasePage._select`, get form: the checked option's text, stripped. -/
def select_get (frag : String) : M String := do
  let e ← findCss ("select" ++ frag ++ " option:checked")
  M.pure (strip e.text)

/-- `BasePage._select`, set form: translate a matching option value into its
displayed text, send the text plus a Tab, then assert the selection. -/
def select_set (frag v : String) : M Unit := do
  let v ← M.attempt
      (do let o ← findCss (selectOptionSel frag v); M.pure (strip o.text))
      (· == .noSuchElement) (M.pure v)
  let _ ← findCss ("select" ++ frag)
  emit (.sendKeys ("select" ++ frag) (v ++ "\t"))
  let got ← select_get frag
  massert (got == v)

/-- The XPath `BasePage._datalist` builds for a labelled table value. -/
def datalistXpath (label : String) : String :=
  "//div[normalize-space(.)=\x27" ++ label ++ "\x27]/../../td[@class=\x27data\x27]" ++
  " | //th[normalize-space(.)=\x27" ++ label ++ "\x27]/../td"

/-- `BasePage._datalist`. -/
def datalist (label : String) : M String := do
  let e ← findXpath (datalistXpath label)
  M.pure e.text

/-- `BasePage._try_datalist`: `none` when the label is absent. -/
def try_datalist (label : String) : M (Option String) :=
  M.attempt (do let t ← datalist label; M.pure (some t))
    (· == .noSuchElement) (M.pure none)

/-! ## Page construction helpers -/

/-- `RequestRfpPage.__init__`: the address-group index is 1 when the page
title contains "Payment", else 2. -/
def requestRfpIndex : M Nat := do
  let d ← getDom
  M.pure (if strContains d.title "Payment" then 1 else 2)

/-- Construct a `ViewAndEditPage` (inherits `RequestRfpPage.__init__`). -/
def mkViewAndEdit : M Page := do
  let i ← requestRfpIndex
  M.pure (Page.viewAndEdit i)

/-! ## AttachReceiptPage -/

namespace AttachReceiptPage

/-- `AttachReceiptPage.__init__`: the class has no `entry_url`, so the base
constructor performs no navigation; then the upload control must be
displayed, else `FailedTransitionError` is raised. -/
def init : M Page := do
  let e ← findCss "#doUpload"
  if e.displayed then M.pure Page.attachReceipt else M.throw .failedTransition

/-- `AttachReceiptPage.select_file`. -/
def select_file (path : String) : M Unit := do
  let _ ← findCss "#upload"
  emit (.sendKeys "#upload" path)

/-- `AttachReceiptPage._overlay_button`: click the first `.ui-dialog` button
whose text matches, then pick the destination page class by whether the
resulting title contains "Display RFP". -/
def overlay_button (text : String) : M Page := do
  let buttons ← findAllCss ".ui-dialog button"
  match buttons.findIdx? (fun b => b.text == text) with
  | some i => emit (.clickIndex ".ui-dialog button" i)
  | none => M.throw .noSuchElement
  let d ← getDom
  if strContains d.title "Display RFP" then M.pure Page.viewOnly else mkViewAndEdit

/-- `AttachReceiptPage.cancel`. -/
def cancel : M Page := overlay_button "Cancel"

/-- `AttachReceiptPage.attach`. -/
def attach : M Page := overlay_button "Attach"

end AttachReceiptPage

/-! ## InboxPage -/

namespace InboxPage

/-- The row-link XPath `InboxPage.select` builds. -/
def selectXpath (rfp : String) : String :=
  "//a[contains(text(), \x27" ++ rfp ++ "\x27)]/../../td//a"

/-- The clone-button XPath `InboxPage._clone_button` builds. -/
def cloneXpath (rfp : String) : String :=
  "//a[contains(text(), \x27" ++ rfp ++ "\x27)]/../../td//button[contains(@class, \x27.clone\x27)]"

/-- `InboxPage.select`: click the RFP's link, check for errors, return a
`ViewAndEditPage`. -/
def select (rfp : String) : M Page := do
  let _ ← findXpath (selectXpath rfp)
  emit (.clickXpath (selectXpath rfp))
  pre_transition
  mkViewAndEdit

/-- `InboxPage.clone`: click the clone button and return a `ViewAndEditPage`
(the source performs no error check here). -/
def clone (rfp : String) : M Page := do
  let _ ← findXpath (cloneXpath rfp)
  emit (.clickXpath (cloneXpath rfp))
  mkViewAndEdit

end InboxPage

/-! ## CreateReimbursementPage / SearchForPayeePage -/

/-- `CreateReimbursementPage`: navigate to the entry URL and wrap the
browser in a `SearchForPayeePage`. -/
def CreateReimbursementPage : M Page := do
  emit (.navigate "https://insidemit-apps.mit.edu/apps/rfp/SelectPayeeReimbursementEntry.action?sapSystemId=PS1")
  M.pure Page.searchForPayee

namespace SearchForPayeePage

/-- `SearchForPayeePage.is_mit`, set form. -/
def is_mit_set (v : Bool) : M Unit :=
  radio_set "payeeType" (if v then "MIT" else "NONMIT")

/-- `SearchForPayeePage.payee_name`, set form. -/
def payee_name_set (v : String) : M Unit := textbox_set "#payeeName" v

/-- `SearchForPayeePage.search`: results load in the same page. -/
def search : M Unit := clickCss "#searchButton"

/-- `SearchForPayeePage.results` with `index=None`: the listed results. -/
def results_list : M (List String) := do
  let rs ← findAllCss "#mit a"
  M.pure (rs.map (fun r => strip r.text))

/-- `SearchForPayeePage.results` with an index: click that result, check for
errors, return a `RequestRfpPage`. -/
def results_select (i : Nat) : M Page := do
  let rs ← findAllCss "#mit a"
  if i < rs.length then emit (.clickIndex "#mit a" i)
  else M.throw (.indexError "list index out of range")
  pre_transition
  let idx ← requestRfpIndex
  M.pure (Page.requestRfp idx)

end SearchForPayeePage

/-! ## RequestRfpPage (field setters used by `create`, plus actions) -/

namespace RequestRfpPage

/-- `RequestRfpPage.rfp_name`, set form. -/
def rfp_name_set (v : String) : M Unit := textbox_set "#rfpName" v

/-- `RequestRfpPage.country`, set form (`#country<index>`). -/
def country_set (idx : Nat) (v : String) : M Unit :=
  select_set ("#country" ++ toString idx) v

/-- `RequestRfpPage.address`, set form (`#address<index>`). -/
def address_set (idx : Nat) (v : String) : M Unit :=
  textbox_set ("#address" ++ toString idx) v

/-- `RequestRfpPage.city`, set form (`#city<index>`). -/
def city_set (idx : Nat) (v : String) : M Unit :=
  textbox_set ("#city" ++ toString idx) v

/-- `RequestRfpPage.state`, set form (`#region<index>`). -/
def state_set (idx : Nat) (v : String) : M Unit :=
  select_set ("#region" ++ toString idx) v

/-- `RequestRfpPage.postal_code`, set form (`#zip<index>`). -/
def postal_code_set (idx : Nat) (v : String) : M Unit :=
  textbox_set ("#zip" ++ toString idx) v

/-- `RequestRfpPage.date_of_service`, set form. -/
def date_of_service_set (li : Nat) (v : String) : M Unit :=
  textbox_set ("#serviceDate-" ++ toString li) v

/-- `RequestRfpPage.gl_account`, set form. -/
def gl_account_set (li : Nat) (v : String) : M Unit :=
  textbox_set ("#glAccount-" ++ toString li) v

/-- `RequestRfpPage.cost_object`, set form. -/
def cost_object_set (li : Nat) (v : String) : M Unit :=
  textbox_set ("#costObject-" ++ toString li) v

/-- `RequestRfpPage.amount`, set form. -/
def amount_set (li : Nat) (v : String) : M Unit :=
  textbox_set ("#amount-" ++ toString li) v

/-- `RequestRfpPage.explanation`, set form. -/
def explanation_set (li : Nat) (v : String) : M Unit :=
  textbox_set ("#description-" ++ toString li) v

/-- `RequestRfpPage.add_line`. -/
def add_line : M Unit := clickCss "#addLine"

/-- `RequestRfpPage.office_note`, set form. -/
def office_note_set (v : String) : M Unit := textbox_set "#messageForAP" v

/-- `RequestRfpPage.change_payee`: click, check for errors, return a
`SearchForPayeePage`. -/
def change_payee : M Page := do
  clickCss ".changePayeeAction"
  pre_transition
  M.pure Page.searchForPayee

/-- `RequestRfpPage.save`: click Save and Continue, check for errors, return
an `AttachReceiptPage`. -/
def save : M Page := do
  clickCss ".saveAction"
  pre_transition
  AttachReceiptPage.init

end RequestRfpPage

/-! ## ViewAndEditPage -/

namespace ViewAndEditPage

/-- `ViewAndEditPage.rfp_number`. -/
def rfp_number : M String := datalist "RFP Number"

/-- `ViewAndEditPage.attach_receipt`: click Attach Receipt and return an
`AttachReceiptPage`.  The source deliberately performs no error check here
("errors on this page will persist"). -/
def attach_receipt : M Page := do
  clickCss ".attachReceipts"
  AttachReceiptPage.init

/-- `ViewAndEditPage.send_to`: click Send to, check for errors, return a
`SendToPage`. -/
def send_to : M Page := do
  clickCss ".sendToAction"
  pre_transition
  M.pure Page.sendTo

end ViewAndEditPage

/-! ## ViewOnlyPage -/

/-- Parse a flat cell list three at a time into (date, time, action) rows;
Python's `cells[i+1]`/`cells[i+2]` raise `IndexError` when the length is not
a multiple of three. -/
def chunk3 : List String → Except Err (List (String × String × String))
  | [] => .ok []
  | d :: t :: a :: rest => (chunk3 rest).map (fun l => (d, t, a) :: l)
  | _ => .error (.indexError "list index out of range")

namespace ViewOnlyPage

/-- `ViewOnlyPage.inbox`. -/
def inbox : M (Option String) := try_datalist "Inbox"

/-- `ViewOnlyPage.rfp_number`. -/
def rfp_number : M String := datalist "RFP Number"

/-- `ViewOnlyPage.payee`. -/
def payee : M String := datalist "Payee"

/-- `ViewOnlyPage.company_code`. -/
def company_code : M String := datalist "Company Code"

/-- `ViewOnlyPage.rfp_name`. -/
def rfp_name : M String := datalist "Name of RFP"

/-- `ViewOnlyPage.rfp_type`. -/
def rfp_type : M String := datalist "Type of RFP"

/-- `ViewOnlyPage.payment_method`. -/
def payment_method : M String := datalist "Payment Method"

/-- The XPath `ViewOnlyPage.mailing_instructions` builds. -/
def mailingXpath : String :=
  "//h2[normalize-space(.)=\x27Mailing Instructions\x27]/following-sibling::div[@class=\x27sectionContainer\x27][1]//h4"

/-- `ViewOnlyPage.mailing_instructions`. -/
def mailing_instructions : M (Option String) :=
  M.attempt (do let e ← findXpath mailingXpath; M.pure (some e.text))
    (· == .noSuchElement) (M.pure none)

/-- `ViewOnlyPage.addressee`. -/
def addressee : M (Option String) := try_datalist "Name"

/-- `ViewOnlyPage.phone`. -/
def phone : M (Option String) := try_datalist "Phone"

/-- `ViewOnlyPage.address`. -/
def address : M (Option String) := try_datalist "Address"

/-- `ViewOnlyPage.city`. -/
def city : M (Option String) := try_datalist "City"

/-- `ViewOnlyPage.state`. -/
def state : M (Option String) := try_datalist "State/Region"

/-- `ViewOnlyPage.postal_code`. -/
def postal_code : M (Option String) := try_datalist "Postal Code"

/-- `ViewOnlyPage.country`. -/
def country : M (Option String) := try_datalist "Country"

/-- `ViewOnlyPage.tax_type`. -/
def tax_type : M (Option String) := try_datalist "Tax Entity Type"

/-- `ViewOnlyPage.ssn_tin`. -/
def ssn_tin : M (Option String) := try_datalist "SSN/TIN"

/-- `ViewOnlyPage.line_item_count`. -/
def line_item_count : M Nat := do
  let rs ← findAllCss ".lineItem"
  M.pure rs.length

/-- `ViewOnlyPage._line_item_cells`: the `td` cells inside the `li`-th
`.lineItem` element (Python indexing raises `IndexError` out of range). -/
def line_item_cells (li : Nat) : M (List Elem) := do
  let rows ← findAllCss ".lineItem"
  if li < rows.length then do
    let d ← getDom
    M.pure (d.cssWithin ".lineItem" li "td")
  else M.throw (.indexError "list index out of range")

/-- Read the `j`-th cell of the `li`-th line-item row. -/
def line_item_cell (li j : Nat) : M String := do
  let cs ← line_item_cells li
  match cs.get? j with
  | some c => M.pure c.text
  | none => M.throw (.indexError "list index out of range")

/-- `ViewOnlyPage.date_of_service`. -/
def date_of_service (li : Nat) : M String := line_item_cell li 0

/-- `ViewOnlyPage.gl_account`. -/
def gl_account (li : Nat) : M String := line_item_cell li 1

/-- `ViewOnlyPage.cost_object`. -/
def cost_object (li : Nat) : M String := line_item_cell li 2

/-- `ViewOnlyPage.amount`. -/
def amount (li : Nat) : M String := line_item_cell li 3

/-- `ViewOnlyPage.explanation`: the `div.data.indent1` element inside the
`li`-th `.lineItem` element. -/
def explanation (li : Nat) : M String := do
  let rows ← findAllCss ".lineItem"
  if li < rows.length then do
    let d ← getDom
    match (d.cssWithin ".lineItem" li "div.data.indent1").head? with
    | some e => M.pure e.text
    | none => M.throw .noSuchElement
  else M.throw (.indexError "list index out of range")

/-- The XPath `ViewOnlyPage.office_note` builds. -/
def officeNoteXpath : String :=
  "//h3[normalize-space(.)=\x27Note to Central Office\x27]/following-sibling::div[@class=\x27sectionContainer\x27][1]"

/-- `ViewOnlyPage.office_note`. -/
def office_note : M (Option String) :=
  M.attempt (do let e ← findXpath officeNoteXpath; M.pure (some e.text))
    (· == .noSuchElement) (M.pure none)

/-- `ViewOnlyPage.attach_receipt`: click Attach Receipt and return an
`AttachReceiptPage`; like `ViewAndEditPage.attach_receipt`, no error check. -/
def attach_receipt : M Page := do
  clickCss ".attachReceipts"
  AttachReceiptPage.init

/-- `ViewOnlyPage.history`: `td` cells of the last `.topHeadersTable`
element, taken three at a time (Python `[-1]` raises `IndexError` on an
empty list). -/
def history : M (List (String × String × String)) := do
  let hs ← findAllCss ".topHeadersTable"
  if hs.isEmpty then M.throw (.indexError "list index out of range")
  else do
    let d ← getDom
    let cells := (d.cssWithin ".topHeadersTable" (hs.length - 1) "td").map Elem.text
    match chunk3 cells with
    | .ok l => M.pure l
    | .error e => M.throw e

end ViewOnlyPage

/-! ## SendToPage -/

namespace SendToPage

/-- `SendToPage.return_to_rfp`: click the link, check for errors, return a
`ViewAndEditPage`. -/
def return_to_rfp : M Page := do
  clickCss "a[href=\x27ReturnToRfp.action\x27]"
  pre_transition
  mkViewAndEdit

/-- `SendToPage.recipient_name`, set form. -/
def recipient_name_set (v : String) : M Unit := textbox_set "#recipientName" v

/-- `SendToPage.search`: results load in the same page. -/
def search : M Unit := clickCss ".searchForRecipient"

/-- `SendToPage.results` with `index=None`. -/
def results_list : M (List String) := do
  let rs ← findAllCss "td.data label[for^=\x27addressee-\x27]"
  M.pure (rs.map (fun r => strip r.text))

/-- `SendToPage.results` with an index: click that result (in place). -/
def results_select (i : Nat) : M Unit := do
  let rs ← findAllCss "td.data label[for^=\x27addressee-\x27]"
  if i < rs.length then emit (.clickIndex "td.data label[for^=\x27addressee-\x27]" i)
  else M.throw (.indexError "list index out of range")

/-- `SendToPage.note`, set form. -/
def note_set (v : String) : M Unit := textbox_set "#recipientNote" v

/-- `SendToPage.send`: click Send, check for errors, return a
`ViewOnlyPage`. -/
def send : M Page := do
  clickCss ".sendToAction"
  pre_transition
  M.pure Page.viewOnly

end SendToPage

/-! ## SearchPage -/

namespace SearchPage

/-- `SearchPage` is an entry page: construction navigates to the entry URL. -/
def entry : M Unit :=
  emit (.navigate "https://insidemit-apps.mit.edu/apps/rfp/SearchEntry.action?sapSystemId=PS1")

/-- `SearchPage.rfp_number`, set form. -/
def rfp_number_set (v : String) : M Unit := textbox_set "#rfpNumber" v

/-- `SearchPage.search`: click Search, check for errors, then return a
`ViewOnlyPage` when the title contains "Display RFP", else the same
`SearchPage`. -/
def search : M Page := do
  clickCss "#searchButton"
  pre_transition
  let d ← getDom
  if strContains d.title "Display RFP" then M.pure Page.viewOnly
  else M.pure Page.search

/-- `SearchPage.results` with `index=None`: the listed RFP numbers. -/
def results_list : M (List String) := do
  let rs ← findAllCss "td.data a[href^=\x27SearchDrillDown\x27]"
  M.pure (rs.map (fun r => strip r.text))

/-- `SearchPage.results` with an index: click that result, check for errors,
return a `ViewOnlyPage`. -/
def results_select (i : Nat) : M Page := do
  let rs ← findAllCss "td.data a[href^=\x27SearchDrillDown\x27]"
  if i < rs.length then emit (.clickIndex "td.data a[href^=\x27SearchDrillDown\x27]" i)
  else M.throw (.indexError "list index out of range")
  pre_transition
  M.pure Page.viewOnly

end SearchPage

/-! ## Workflow: `create` -/

/-- One line item of `create`: (date_of_service, gl_account, cost_object,
amount, explanation). -/
structure LineItem where
  date_of_service : String
  gl_account : String
  cost_object : String
  amount : String
  explanation : String
deriving DecidableEq, Repr

/-- The address-group index carried by the page object returned from the
payee-result selection (an embedding artifact: in Python the index lives on
the `RequestRfpPage` object; a field access on any other object raises
`AttributeError`). -/
def pageReqIdx (p : Page) : M Nat :=
  match p with
  | .requestRfp i => M.pure i
  | .viewAndEdit i => M.pure i
  | _ => M.throw .attributeError

/-- The mailing-address block of `create`: skipped when `address` is `None`
or empty (both falsy in `if address:`); a 5-element tuple sets the state, a
4-element tuple leaves the local `state` unbound so that `page.state(state)`
raises `NameError` (caught by the `except NameError: pass`); any other
length raises `IndexError`. -/
def addressBlock (idx : Nat) : Option (List String) → M Unit
  | none => M.pure ()
  | some [] => M.pure ()
  | some [address_line, city, state, postal_code, country] => do
      RequestRfpPage.country_set idx country
      RequestRfpPage.address_set idx address_line
      RequestRfpPage.city_set idx city
      M.attempt (RequestRfpPage.state_set idx state) (· == .nameError) (M.pure ())
      RequestRfpPage.postal_code_set idx postal_code
  | some [address_line, city, postal_code, country] => do
      RequestRfpPage.country_set idx country
      RequestRfpPage.address_set idx address_line
      RequestRfpPage.city_set idx city
      M.attempt (M.throw .nameError) (· == .nameError) (M.pure ())
      RequestRfpPage.postal_code_set idx postal_code
  | some _ => M.throw (.indexError "address has an improper length.")

/-- One pass of `create`'s line-item loop body at counter `i`. -/
def lineItemEntry (i : Nat) (li : LineItem) : M Unit := do
  if i > 0 then RequestRfpPage.add_line else M.pure ()
  RequestRfpPage.date_of_service_set i li.date_of_service
  RequestRfpPage.gl_account_set i li.gl_account
  RequestRfpPage.cost_object_set i li.cost_object
  RequestRfpPage.amount_set i li.amount
  RequestRfpPage.explanation_set i li.explanation

/-- `create`'s line-item loop (`i` starts at 0 and counts up). -/
def lineItemLoop (i : Nat) : List LineItem → M Unit
  | [] => M.pure ()
  | li :: rest => do
      lineItemEntry i li
      lineItemLoop (i + 1) rest

/-- One pass of `create`'s receipts loop: reopen the overlay when the
current page is an editable RFP, then `select_file` (an `AttributeError`
when the page object lacks that method) and `attach`. -/
def attachLoopStep (p : Page) (receipt : String) : M Page := do
  let p ← match p with
    | .viewAndEdit _ => ViewAndEditPage.attach_receipt
    | _ => M.pure p
  match p with
  | .attachReceipt => do
      AttachReceiptPage.select_file receipt
      AttachReceiptPage.attach
  | _ => M.throw .attributeError

/-- `create`'s receipts loop. -/
def receiptsLoop : List String → Page → M Page
  | [], p => M.pure p
  | r :: rest, p => do
      let p₁ ← attachLoopStep p r
      receiptsLoop rest p₁

/-- `page.cancel()` as dispatched in `create` (only `AttachReceiptPage`
defines it). -/
def pageCancel (p : Page) : M Page :=
  match p with
  | .attachReceipt => AttachReceiptPage.cancel
  | _ => M.throw .attributeError

/-- `page.rfp_number()` as dispatched in `create` (defined on
`ViewAndEditPage` and `ViewOnlyPage`). -/
def pageRfpNumber (p : Page) : M String :=
  match p with
  | .viewAndEdit _ => ViewAndEditPage.rfp_number
  | .viewOnly => ViewOnlyPage.rfp_number
  | _ => M.throw .attributeError

/-- `page.send_to()` as dispatched in `create` (only `ViewAndEditPage`
defines it). -/
def pageSendTo (p : Page) : M Page :=
  match p with
  | .viewAndEdit _ => ViewAndEditPage.send_to
  | _ => M.throw .attributeError

/-- The `create` workflow of `rfp.py`.  `payee` is the optional keyword
argument defaulting to `None`; the very first statements subscript it
(`payee[0]`, `payee[1]`), so `None` raises a `TypeError` before any browser
interaction. -/
def create (name : String) (payee : Option (Bool × String))
    (address : Option (List String)) (line_items : List LineItem)
    (office_note : String) (receipts : List String)
    (send_to : Option (String × String)) : M String :=
  match payee with
  | none => M.throw .typeError
  | some (is_mit, payee_name) => do
      let _ ← CreateReimbursementPage
      SearchForPayeePage.is_mit_set is_mit
      SearchForPayeePage.payee_name_set payee_name
      SearchForPayeePage.search
      let rs ← SearchForPayeePage.results_list
      massert (rs.length == 1)
      let page ← SearchForPayeePage.results_select 0
      let idx ← pageReqIdx page
      RequestRfpPage.rfp_name_set name
      addressBlock idx address
      lineItemLoop 0 line_items
      RequestRfpPage.office_note_set office_note
      let page ← RequestRfpPage.save
      let page ← receiptsLoop receipts page
      let page ← if receipts.isEmpty then pageCancel page else M.pure page
      let rfp_number ← pageRfpNumber page
      match send_to with
      | none => M.pure rfp_number
      | some (recipient, note) => do
          let _ ← pageSendTo page
          SendToPage.recipient_name_set recipient
          SendToPage.search
          let rs2 ← SendToPage.results_list
          massert (rs2.length == 1)
          SendToPage.note_set note
          let _ ← SendToPage.send
          M.pure rfp_number

/-! ## Workflow: `view` -/

/-- The structured result assembled by `view`. -/
structure ViewResult where
  rfp_number : String
  inbox : Option String
  payee : String
  company_code : String
  rfp_name : String
  rfp_type : String
  payment_method : String
  mailing_instructions : Option String
  addressee : Option String
  phone : Option String
  address : Option String
  city : Option String
  state : Option String
  postal_code : Option String
  country : Option String
  tax_type : Option String
  ssn_tin : Option String
  line_items : List LineItem
  office_note : Option String
  history : List (String × String × String)
deriving DecidableEq, Repr

/-- One pass of `view`'s line-item loop body. -/
def readLineItem (i : Nat) : M LineItem := do
  let d ← ViewOnlyPage.date_of_service i
  let g ← ViewOnlyPage.gl_account i
  let c ← ViewOnlyPage.cost_object i
  let a ← ViewOnlyPage.amount i
  let e ← ViewOnlyPage.explanation i
  M.pure ⟨d, g, c, a, e⟩

/-- `view`'s line-item loop over `range(page.line_item_count())`. -/
def readLineItems : List Nat → M (List LineItem)
  | [] => M.pure []
  | i :: rest => do
      let li ← readLineItem i
      let tail ← readLineItems rest
      M.pure (li :: tail)

/-- The `view` workflow of `rfp.py`. -/
def view (rfp_number : String) : M ViewResult := do
  SearchPage.entry
  SearchPage.rfp_number_set rfp_number
  let page ← SearchPage.search
  massert (page == Page.viewOnly)
  let inbox ← ViewOnlyPage.inbox
  let num ← ViewOnlyPage.rfp_number
  massert (num == rfp_number)
  let payee ← ViewOnlyPage.payee
  let company_code ← ViewOnlyPage.company_code
  let rfp_name ← ViewOnlyPage.rfp_name
  let rfp_type ← ViewOnlyPage.rfp_type
  let payment_method ← ViewOnlyPage.payment_method
  let mailing_instructions ← ViewOnlyPage.mailing_instructions
  let addressee ← ViewOnlyPage.addressee
  let phone ← ViewOnlyPage.phone
  let address ← ViewOnlyPage.address
  let city ← ViewOnlyPage.city
  let state ← ViewOnlyPage.state
  let postal_code ← ViewOnlyPage.postal_code
  let country ← ViewOnlyPage.country
  let tax_type ← ViewOnlyPage.tax_type
  let ssn_tin ← ViewOnlyPage.ssn_tin
  let n ← ViewOnlyPage.line_item_count
  let line_items ← readLineItems (List.range n)
  let office_note ← ViewOnlyPage.office_note
  let history ← ViewOnlyPage.history
  M.pure { rfp_number, inbox, payee, company_code, rfp_name, rfp_type,
           payment_method, mailing_instructions, addressee, phone, address,
           city, state, postal_code, country, tax_type, ssn_tin, line_items,
           office_note, history }

/-! ## Concrete environments for witnesses and counterexamples -/

/-- Parameters for a family of demonstration DOMs. -/
structure DomSpec where
  title : String := "RFP Reimbursement"
  errs : List Elem := []
  mitRes : List Elem := [{ text := "One Payee (kerb,dept)" }]
  recip : List Elem := [{ text := "One Recipient (kerb,dept)" }]
  sdr : List Elem := []
  liRows : List Elem := []
  liCells : List Elem := []
  expl : List Elem := []
  histCells : List Elem := []
  hasRegion : Bool := true
  uploadDisplayed : Bool := true
  rfpNumberText : String := "1234567"

/-- A demonstration DOM: every locator finds an element (with specific
answers for the selectors whose content matters), except that when
`hasRegion` is false every selector mentioning `#region` finds nothing. -/
def mkDom (sp : DomSpec) : Dom where
  title := sp.title
  css := fun sel =>
    if !sp.hasRegion && strContains sel "#region" then none
    else if sel == "#doUpload" then some { displayed := sp.uploadDisplayed }
    else if sel == selectOptionSel "#country2" "US" then some { text := "United States" }
    else if sel == "select#country2 option:checked" then some { text := "United States" }
    else if sel == selectOptionSel "#region2" "MA" then some { text := "Massachusetts" }
    else if sel == "select#region2 option:checked" then some { text := "Massachusetts" }
    else some {}
  cssAll := fun sel =>
    if sel == ".portlet-msg-error" then sp.errs
    else if sel == "label.jqerror" then []
    else if sel == "#mit a" then sp.mitRes
    else if sel == "td.data label[for^=\x27addressee-\x27]" then sp.recip
    else if sel == "td.data a[href^=\x27SearchDrillDown\x27]" then sp.sdr
    else if sel == ".ui-dialog button" then [{ text := "Cancel" }, { text := "Attach" }]
    else if sel == ".lineItem" then sp.liRows
    else if sel == ".topHeadersTable" then [{}]
    else []
  xpath := fun xp =>
    if xp == datalistXpath "RFP Number" then some { text := sp.rfpNumberText }
    else some { text := "x" }
  cssWithin := fun outer _i inner =>
    if outer == ".lineItem" && inner == "td" then sp.liCells
    else if outer == ".lineItem" && inner == "div.data.indent1" then sp.expl
    else if outer == ".topHeadersTable" && inner == "td" then sp.histCells
    else []

/-- A session whose page never changes, at time 0, with an empty trace. -/
def constSession (d : Dom) : Session := ⟨fun _ => d, 0, []⟩

/-- A session showing `d₀` initially and `d₁` after the first mutating
event. -/
def twoPhase (d₀ d₁ : Dom) : Session := ⟨fun t => if t = 0 then d₀ else d₁, 0, []⟩

/-- The number of line-item rows rendered on the current page. -/
def renderedLineItemCount (s : Session) : Nat :=
  ((s.script s.time).cssAll ".lineItem").length

/-- The flat sequence of history-table cell texts on the current page (the
`td` cells of the last `.topHeadersTable` element). -/
def renderedHistoryCells (s : Session) : List String :=
  ((s.script s.time).cssWithin ".topHeadersTable"
    (((s.script s.time).cssAll ".topHeadersTable").length - 1) "td").map Elem.text

/-- The five clear/send-keys pairs entering one line item's fields. -/
def lineFieldEvents (i : Nat) (li : LineItem) : List Event :=
  [.clear ("#serviceDate-" ++ toString i),
   .sendKeys ("#serviceDate-" ++ toString i) li.date_of_service,
   .clear ("#glAccount-" ++ toString i),
   .sendKeys ("#glAccount-" ++ toString i) li.gl_account,
   .clear ("#costObject-" ++ toString i),
   .sendKeys ("#costObject-" ++ toString i) li.cost_object,
   .clear ("#amount-" ++ toString i),
   .sendKeys ("#amount-" ++ toString i) li.amount,
   .clear ("#description-" ++ toString i),
   .sendKeys ("#description-" ++ toString i) li.explanation]

/-- The events of one pass of the line-item loop at counter `i`. -/
def lineEntryEvents (i : Nat) (li : LineItem) : List Event :=
  (if i > 0 then [Event.click "#addLine"] else []) ++ lineFieldEvents i li

/-- The events of the whole line-item loop started at counter `i`. -/
def lineEvents (i : Nat) : List LineItem → List Event
  | [] => []
  | li :: rest => lineEntryEvents i li ++ lineEvents (i + 1) rest

/-- Spec-side description of the line-item trace: the first item uses the
default row; every later item is preceded by exactly one "add line" click
and followed by its five field entries. -/
def specRestTrace (i : Nat) : List LineItem → List Event
  | [] => []
  | li :: rest => Event.click "#addLine" :: (lineFieldEvents i li ++ specRestTrace (i + 1) rest)

/-- Spec-side description of the full line-item trace. -/
def specLineItemTrace : List LineItem → List Event
  | [] => []
  | first :: rest => lineFieldEvents 0 first ++ specRestTrace 1 rest

/-- The entry URL of `CreateReimbursementPage`. -/
def reimbursementUrl : String :=
  "https://insidemit-apps.mit.edu/apps/rfp/SelectPayeeReimbursementEntry.action?sapSystemId=PS1"

/-- The events of `create` up to and including the payee-search click. -/
def payeeSearchEvents (pn : String) : List Event :=
  [.navigate reimbursementUrl,
   .click (radioValueSel "payeeType" "NONMIT"),
   .clear "#payeeName", .sendKeys "#payeeName" pn,
   .click "#searchButton"]

/-- The events of `create` from the payee-result click through entering the
RFP name. -/
def rfpNameEvents (nm : String) : List Event :=
  [.clickIndex "#mit a" 0, .clear "#rfpName", .sendKeys "#rfpName" nm]

/-- The events of `create` from the office note through the overlay cancel
(no receipts). -/
def saveCancelEvents (note : String) : List Event :=
  [.clear "#messageForAP", .sendKeys "#messageForAP" note,
   .click ".saveAction",
   .clickIndex ".ui-dialog button" 0]

/-- The events of `create`'s send-to block up to and including the
recipient-search click. -/
def recipientSearchEvents (recipient : String) : List Event :=
  [.click ".sendToAction",
   .clear "#recipientName", .sendKeys "#recipientName" recipient,
   .click ".searchForRecipient"]

/-- The events of `create`'s send-to block after a unique recipient match. -/
def sendEvents (note : String) : List Event :=
  [.clear "#recipientNote", .sendKeys "#recipientNote" note,
   .click ".sendToAction"]

/-- The address-entry events for a 4-element address at group index 2 (the
state step is skipped). -/
def addr4Events : List Event :=
  [.sendKeys "select#country2" "United States\t",
   .clear "#address2", .sendKeys "#address2" "17 Main St",
   .clear "#city2", .sendKeys "#city2" "Cambridge",
   .clear "#zip2", .sendKeys "#zip2" "02139"]

/-- The address-entry events for a 5-element address at group index 2 (the
state step runs between city and postal code). -/
def addr5Events : List Event :=
  [.sendKeys "select#country2" "United States\t",
   .clear "#address2", .sendKeys "#address2" "17 Main St",
   .clear "#city2", .sendKeys "#city2" "Cambridge",
   .sendKeys "select#region2" "Massachusetts\t",
   .clear "#zip2", .sendKeys "#zip2" "02139"]

/-- The address-entry events reached when the page lacks a state field: the
country, address-line and city steps have run; the state lookup then raises
an uncaught no-such-element condition, so no postal-code events follow. -/
def addrNoRegionEvents : List Event :=
  [.sendKeys "select#country2" "United States\t",
   .clear "#address2", .sendKeys "#address2" "17 Main St",
   .clear "#city2", .sendKeys "#city2" "Cambridge"]

/-- The C1 demonstration environment: a page that always shows an error
message while every locator still finds its element. -/
def c1dom : Dom := mkDom
  { errs := [{ text := "Something went wrong" }], sdr := [{ text := "0001234567" }] }

/-- The C2 counterexample environment: exactly one search result is listed,
no errors are shown, and the title does not contain "Display RFP". -/
def c2dom : Dom := mkDom { sdr := [{ text := "0001234567" }], title := "Search for an RFP" }

/-- A fully benign `create` environment whose every locator finds an
element regardless of the selector text (so it also serves line-item
selectors containing arbitrary indices). -/
def c9dom : Dom where
  title := "RFP Reimbursement"
  css := fun _ => some {}
  cssAll := fun sel =>
    if sel == ".portlet-msg-error" then []
    else if sel == "label.jqerror" then []
    else if sel == "#mit a" then [{ text := "One Payee (kerb,dept)" }]
    else if sel == ".ui-dialog button" then [{ text := "Cancel" }, { text := "Attach" }]
    else []
  xpath := fun _ => some { text := "1234567" }
  cssWithin := fun _ _ _ => []

/-- Pre-send-keys DOM for the select round-trip demonstration: the option
with value "CO" displays " Company X " (note the surrounding whitespace),
and "Company X" is not itself the value of any option. -/
def c6dom0 : Dom where
  title := "RFP Reimbursement"
  css := fun sel =>
    if sel == selectOptionSel "#coCode" "CO" then some { text := " Company X " }
    else if sel == selectOptionSel "#coCode" "Company X" then none
    else if sel == "select#coCode" then some {}
    else none
  cssAll := fun _ => []
  xpath := fun _ => none
  cssWithin := fun _ _ _ => []

/-- Post-send-keys DOM for the select round-trip demonstration: the
requested option is now checked. -/
def c6dom1 : Dom where
  title := "RFP Reimbursement"
  css := fun sel =>
    if sel == "select#coCode option:checked" then some { text := "Company X  " }
    else none
  cssAll := fun _ => []
  xpath := fun _ => none
  cssWithin := fun _ _ _ => []

/-- The C5 witness environment: a resolved RFP page with two line-item rows
and six history cells. -/
def c5dom : Dom := mkDom
  { title := "Display RFP 1234567",
    liRows := [{}, {}],
    liCells := [{ text := "d" }, { text := "g" }, { text := "c" }, { text := "a" }],
    expl := [{ text := "because" }],
    histCells := [{ text := "1/1" }, { text := "9:00" }, { text := "Created" },
                  { text := "1/2" }, { text := "10:00" }, { text := "Sent" }] }

/-- The structured result `view "1234567"` assembles in the C5 witness
environment. -/
def c5res : ViewResult where
  rfp_number := "1234567"
  inbox := some "x"
  payee := "x"
  company_code := "x"
  rfp_name := "x"
  rfp_type := "x"
  payment_method := "x"
  mailing_instructions := some "x"
  addressee := some "x"
  phone := some "x"
  address := some "x"
  city := some "x"
  state := some "x"
  postal_code := some "x"
  country := some "x"
  tax_type := some "x"
  ssn_tin := some "x"
  line_items := [⟨"d", "g", "c", "a", "because"⟩, ⟨"d", "g", "c", "a", "because"⟩]
  office_note := some "x"
  history := [("1/1", "9:00", "Created"), ("1/2", "10:00", "Sent")]

/-- The final session of the C5 witness run: four mutating events (the
entry navigation, the two rfp-number field events, the search click). -/
def c5final : Session :=
  ⟨fun _ => c5dom, 4,
   [Event.navigate "https://insidemit-apps.mit.edu/apps/rfp/SearchEntry.action?sapSystemId=PS1",
    Event.clear "#rfpNumber", Event.sendKeys "#rfpNumber" "1234567",
    Event.click "#searchButton"]⟩

/-- The C7 environment family, parametrized by the payee-search and
recipient-search result lists. -/
def c7dom (mit recip : List Elem) : Dom := mkDom { mitRes := mit, recip := recip }

/-- The C7 session family. -/
def c7sess (mit recip : List Elem) : Session := constSession (c7dom mit recip)

/-! ## Run lemmas for the effect monad -/

@[simp] theorem run_bind (x : M α) (f : α → M β) (s : Session) :
    (x >>= f) s = match x s with
      | (.ok a, s₁) => f a s₁
      | (.error e, s₁) => (.error e, s₁) := rfl

@[simp] theorem run_pure (a : α) (s : Session) : (pure a : M α) s = (.ok a, s) := rfl

@[simp] theorem run_mpure (a : α) (s : Session) : M.pure a s = (.ok a, s) := rfl

@[simp] theorem run_throw (e : Err) (s : Session) :
    (M.throw e : M α) s = (.error e, s) := rfl

@[simp] theorem run_attempt (x : M α) (sel : Err → Bool) (h : M α) (s : Session) :
    M.attempt x sel h s = match x s with
      | (.ok a, s₁) => (.ok a, s₁)
      | (.error e, s₁) => if sel e then h s₁ else (.error e, s₁) := rfl

@[simp] theorem run_getDom (s : Session) : getDom s = (.ok (s.script s.time), s) := rfl

@[simp] theorem run_emit (ev : Event) (s : Session) :
    emit ev s = (.ok (), { s with time := s.time + 1, trace := s.trace ++ [ev] }) := rfl

@[simp] theorem run_findCss (sel : String) (s : Session) :
    findCss sel s = match (s.script s.time).css sel with
      | some e => (.ok e, s)
      | none => (.error .noSuchElement, s) := rfl

@[simp] theorem run_findAllCss (sel : String) (s : Session) :
    findAllCss sel s = (.ok ((s.script s.time).cssAll sel), s) := rfl

@[simp] theorem run_findXpath (xp : String) (s : Session) :
    findXpath xp s = match (s.script s.time).xpath xp with
      | some e => (.ok e, s)
      | none => (.error .noSuchElement, s) := rfl

@[simp] theorem run_massert (b : Bool) (s : Session) :
    massert b s = (if b then (.ok (), s) else (.error .assertionError, s)) := by
  cases b <;> rfl

/-- `_pre_transition` raises `FailedTransitionError` whenever error messages
are rendered. -/
theorem pre_transition_err {s : Session}
    (h : (s.script s.time).cssAll ".portlet-msg-error" ≠ []) :
    pre_transition s = (.error .failedTransition, s) := by
  unfold pre_transition errors
  cases hl : (s.script s.time).cssAll ".portlet-msg-error" with
  | nil => exact absurd hl h
  | cons a t => simp [hl]

/-- `_pre_transition` succeeds when no error messages are rendered. -/
theorem pre_transition_ok {s : Session}
    (h1 : (s.script s.time).cssAll ".portlet-msg-error" = [])
    (h2 : (s.script s.time).cssAll "label.jqerror" = []) :
    pre_transition s = (.ok (), s) := by
  unfold pre_transition errors
  simp [h1, h2]

/-! ## C10 -/

/-- C10: `create`'s `payee` parameter defaults to `None` but is subscripted
unconditionally before anything else, so every call omitting the payee
fails with a `TypeError` with the session untouched — no navigation, click
or field access has happened. -/
theorem create_without_payee_type_error
    (s : Session) (name : String) (address : Option (List String))
    (line_items : List LineItem) (office_note : String)
    (receipts : List String) (send_to : Option (String × String)) :
    create name none address line_items office_note receipts send_to s
      = (.error .typeError, s) := rfl

/-! ## C8 -/

/-- C8: `AttachReceiptPage` construction checks only that the upload
control is visible: when it is not displayed, construction fails with
`FailedTransitionError` and the session is returned untouched (no event is
performed); when it is displayed, construction succeeds, again with no
event. -/
theorem attach_receipt_visibility_precondition
    (s : Session) (e : Elem)
    (h : (s.script s.time).css "#doUpload" = some e) :
    AttachReceiptPage.init s =
      ((if e.displayed then Except.ok Page.attachReceipt
        else Except.error Err.failedTransition), s) := by
  unfold AttachReceiptPage.init
  simp only [run_bind, run_findCss, h]
  cases e.displayed <;> simp

/-- Witness for C8: with the upload control hidden, construction fails with
the failed-transition condition; with it shown, construction succeeds. -/
theorem attach_receipt_visibility_precondition_witness :
    AttachReceiptPage.init (constSession (mkDom { uploadDisplayed := false }))
        = (.error .failedTransition, constSession (mkDom { uploadDisplayed := false })) ∧
    AttachReceiptPage.init (constSession (mkDom {}))
        = (.ok Page.attachReceipt, constSession (mkDom {})) := by
  constructor
  · have h := attach_receipt_visibility_precondition
      (constSession (mkDom { uploadDisplayed := false })) { displayed := false } rfl
    simpa using h
  · have h := attach_receipt_visibility_precondition
      (constSession (mkDom {})) { displayed := true } rfl
    simpa using h

/-! ## C1 -/

/-- Every CSS locator finds an element in a `mkDom` environment whose
region fields are present. -/
theorem mkDom_css_some (sp : DomSpec) (sel : String) (h : sp.hasRegion = true) :
    ∃ e, (mkDom sp).css sel = some e := by
  simp only [mkDom, h, Bool.not_true, Bool.false_and, Bool.false_eq_true, if_false]
  repeat' split
  all_goals exact ⟨_, rfl⟩

/-- Every XPath locator finds an element in a `mkDom` environment. -/
theorem mkDom_xpath_some (sp : DomSpec) (xp : String) :
    ∃ e, (mkDom sp).xpath xp = some e := by
  simp only [mkDom]
  split
  all_goals exact ⟨_, rfl⟩

/-- C1 (amended): the error check on transition holds for the nine action
methods that invoke `_pre_transition` — Inbox `select`, SearchForPayee
`results(i)`, RequestRfp `change_payee` and `save`, ViewAndEdit `send_to`,
SendTo `return_to_rfp` and `send`, Search `search` and `results(i)`: in any
session whose pages always render an error message (and where the clicked
elements exist), each of them fails with the failed-transition condition
instead of returning the destination page object.  Inbox `clone` and the
two `attach_receipt` methods are not in this list: they construct the
destination page without checking `errors()` (see the counterexample). -/
theorem guarded_transitions_check_errors
    (s : Session) (rfp : String) (i : Nat)
    (hcss : ∀ t sel, ∃ e, ((s.script t).css sel) = some e)
    (hxp : ∀ t xp, ∃ e, ((s.script t).xpath xp) = some e)
    (hmit : ∀ t, i < ((s.script t).cssAll "#mit a").length)
    (hsdr : ∀ t, i < ((s.script t).cssAll "td.data a[href^=\x27SearchDrillDown\x27]").length)
    (herr : ∀ t, (s.script t).cssAll ".portlet-msg-error" ≠ []) :
    (InboxPage.select rfp s).1 = .error .failedTransition ∧
    (SearchForPayeePage.results_select i s).1 = .error .failedTransition ∧
    (RequestRfpPage.change_payee s).1 = .error .failedTransition ∧
    (RequestRfpPage.save s).1 = .error .failedTransition ∧
    (ViewAndEditPage.send_to s).1 = .error .failedTransition ∧
    (SendToPage.return_to_rfp s).1 = .error .failedTransition ∧
    (SendToPage.send s).1 = .error .failedTransition ∧
    (SearchPage.search s).1 = .error .failedTransition ∧
    (SearchPage.results_select i s).1 = .error .failedTransition := by
  refine ⟨?_, ?_, ?_, ?_, ?_, ?_, ?_, ?_, ?_⟩
  · obtain ⟨e, he⟩ := hxp s.time (InboxPage.selectXpath rfp)
    simp only [InboxPage.select, run_bind, run_findXpath, he, run_emit,
      pre_transition_err, herr, ne_eq, not_false_iff]
  · simp only [SearchForPayeePage.results_select, run_bind, run_findAllCss, run_emit,
      hmit s.time, if_true, run_mpure, pre_transition_err, herr, ne_eq, not_false_iff]
  · obtain ⟨e, he⟩ := hcss s.time ".changePayeeAction"
    simp only [RequestRfpPage.change_payee, clickCss, run_bind, run_findCss, he, run_emit,
      pre_transition_err, herr, ne_eq, not_false_iff]
  · obtain ⟨e, he⟩ := hcss s.time ".saveAction"
    simp only [RequestRfpPage.save, clickCss, run_bind, run_findCss, he, run_emit,
      pre_transition_err, herr, ne_eq, not_false_iff]
  · obtain ⟨e, he⟩ := hcss s.time ".sendToAction"
    simp only [ViewAndEditPage.send_to, clickCss, run_bind, run_findCss, he, run_emit,
      pre_transition_err, herr, ne_eq, not_false_iff]
  · obtain ⟨e, he⟩ := hcss s.time "a[href=\x27ReturnToRfp.action\x27]"
    simp only [SendToPage.return_to_rfp, clickCss, run_bind, run_findCss, he, run_emit,
      pre_transition_err, herr, ne_eq, not_false_iff]
  · obtain ⟨e, he⟩ := hcss s.time ".sendToAction"
    simp only [SendToPage.send, clickCss, run_bind, run_findCss, he, run_emit,
      pre_transition_err, herr, ne_eq, not_false_iff]
  · obtain ⟨e, he⟩ := hcss s.time "#searchButton"
    simp only [SearchPage.search, clickCss, run_bind, run_findCss, he, run_emit,
      pre_transition_err, herr, ne_eq, not_false_iff]
  · simp only [SearchPage.results_select, run_bind, run_findAllCss, run_emit,
      hsdr s.time, if_true, run_mpure, pre_transition_err, herr, ne_eq, not_false_iff]

/-- Witness for C1: in a concrete environment that always shows an error
message, each of the nine guarded action methods fails with the
failed-transition condition. -/
theorem guarded_transitions_check_errors_witness :
    (InboxPage.select "42" (constSession c1dom)).1 = .error .failedTransition ∧
    (SearchForPayeePage.results_select 0 (constSession c1dom)).1 = .error .failedTransition ∧
    (RequestRfpPage.change_payee (constSession c1dom)).1 = .error .failedTransition ∧
    (RequestRfpPage.save (constSession c1dom)).1 = .error .failedTransition ∧
    (ViewAndEditPage.send_to (constSession c1dom)).1 = .error .failedTransition ∧
    (SendToPage.return_to_rfp (constSession c1dom)).1 = .error .failedTransition ∧
    (SendToPage.send (constSession c1dom)).1 = .error .failedTransition ∧
    (SearchPage.search (constSession c1dom)).1 = .error .failedTransition ∧
    (SearchPage.results_select 0 (constSession c1dom)).1 = .error .failedTransition :=
  guarded_transitions_check_errors (constSession c1dom) "42" 0
    (fun _ sel => mkDom_css_some _ sel rfl)
    (fun _ xp => mkDom_xpath_some _ xp)
    (fun _ => by simp [constSession, c1dom, mkDom])
    (fun _ => by simp [constSession, c1dom, mkDom])
    (fun _ => by simp [constSession, c1dom, mkDom])

/-- Counterexample for C1 as stated: in the same always-erroring
environment, `InboxPage.clone`, `ViewAndEditPage.attach_receipt` and
`ViewOnlyPage.attach_receipt` construct and return the destination page
object even though `errors()` is non-empty — they never check it. -/
theorem clone_and_attach_skip_error_check :
    (errors (constSession c1dom)).1 = .ok ["Something went wrong"] ∧
    (InboxPage.clone "42" (constSession c1dom)).1 = .ok (Page.viewAndEdit 2) ∧
    (ViewAndEditPage.attach_receipt (constSession c1dom)).1 = .ok Page.attachReceipt ∧
    (ViewOnlyPage.attach_receipt (constSession c1dom)).1 = .ok Page.attachReceipt :=
  ⟨rfl, rfl, rfl, rfl⟩

/-! ## C2 -/

/-- C2 (amended): `SearchPage.search` clicks Search and, after passing the
error guard, branches on the page title alone: it returns a `ViewOnlyPage`
exactly when the resulting title contains "Display RFP" and otherwise
returns the same `SearchPage` — the number of listed results plays no part
in the decision. -/
theorem search_branches_on_title
    (s : Session) (btn : Elem)
    (hbtn : (s.script s.time).css "#searchButton" = some btn)
    (h1 : (s.script (s.time + 1)).cssAll ".portlet-msg-error" = [])
    (h2 : (s.script (s.time + 1)).cssAll "label.jqerror" = []) :
    SearchPage.search s =
      ((.ok (if strContains ((s.script (s.time + 1)).title) "Display RFP"
             then Page.viewOnly else Page.search)),
       { s with time := s.time + 1, trace := s.trace ++ [Event.click "#searchButton"] }) := by
  simp only [SearchPage.search, clickCss, run_bind, run_findCss, hbtn, run_emit,
    pre_transition_ok, h1, h2, run_getDom]
  by_cases hc : strContains ((s.script (s.time + 1)).title) "Display RFP" = true
  · simp [hc]
  · simp only [Bool.not_eq_true] at hc
    simp [hc]

/-- Witness for C2: at a concrete search page whose post-click title lacks
"Display RFP", `search` returns the same `SearchPage`. -/
theorem search_branches_on_title_witness :
    SearchPage.search (constSession c2dom) =
      (.ok Page.search,
       { constSession c2dom with time := 1, trace := [Event.click "#searchButton"] }) := by
  have h := search_branches_on_title (constSession c2dom) {} rfl rfl rfl
  simpa using h

/-- Counterexample for C2 as stated: a search that yields exactly one
listed result while the title lacks "Display RFP" returns the same
`SearchPage`, not a `ViewOnlyPage`. -/
theorem search_single_result_same_page :
    (SearchPage.search (constSession c2dom)).1 = .ok Page.search ∧
    (SearchPage.results_list (SearchPage.search (constSession c2dom)).2).1
      = .ok ["0001234567"] :=
  ⟨rfl, rfl⟩

/-! ## Evaluation simp set for concrete runs -/

@[simp] theorem natToString_zero : (toString (0 : Nat) : String) = "0" := rfl

@[simp] theorem natToString_one : (toString (1 : Nat) : String) = "1" := rfl

@[simp] theorem natToString_two : (toString (2 : Nat) : String) = "2" := rfl

attribute [simp] errors pre_transition radioCheckedSel radioValueSel radio_get radio_set
  checkbox_get checkbox_set textbox_get textbox_set selectOptionSel select_get select_set
  datalistXpath datalist try_datalist requestRfpIndex mkViewAndEdit clickCss
  strip charPrefix charInfix strContains isSpaceChar chunk3
  AttachReceiptPage.init AttachReceiptPage.select_file AttachReceiptPage.overlay_button
  AttachReceiptPage.cancel AttachReceiptPage.attach
  InboxPage.selectXpath InboxPage.cloneXpath InboxPage.select InboxPage.clone
  CreateReimbursementPage
  SearchForPayeePage.is_mit_set SearchForPayeePage.payee_name_set SearchForPayeePage.search
  SearchForPayeePage.results_list SearchForPayeePage.results_select
  RequestRfpPage.rfp_name_set RequestRfpPage.country_set RequestRfpPage.address_set
  RequestRfpPage.city_set RequestRfpPage.state_set RequestRfpPage.postal_code_set
  RequestRfpPage.date_of_service_set RequestRfpPage.gl_account_set
  RequestRfpPage.cost_object_set RequestRfpPage.amount_set RequestRfpPage.explanation_set
  RequestRfpPage.add_line RequestRfpPage.office_note_set RequestRfpPage.change_payee
  RequestRfpPage.save
  ViewAndEditPage.rfp_number ViewAndEditPage.attach_receipt ViewAndEditPage.send_to
  ViewOnlyPage.inbox ViewOnlyPage.rfp_number ViewOnlyPage.payee ViewOnlyPage.company_code
  ViewOnlyPage.rfp_name ViewOnlyPage.rfp_type ViewOnlyPage.payment_method
  ViewOnlyPage.mailingXpath ViewOnlyPage.mailing_instructions ViewOnlyPage.addressee
  ViewOnlyPage.phone ViewOnlyPage.address ViewOnlyPage.city ViewOnlyPage.state
  ViewOnlyPage.postal_code ViewOnlyPage.country ViewOnlyPage.tax_type ViewOnlyPage.ssn_tin
  ViewOnlyPage.line_item_count ViewOnlyPage.line_item_cells ViewOnlyPage.line_item_cell
  ViewOnlyPage.date_of_service ViewOnlyPage.gl_account ViewOnlyPage.cost_object
  ViewOnlyPage.amount ViewOnlyPage.explanation ViewOnlyPage.officeNoteXpath
  ViewOnlyPage.office_note ViewOnlyPage.attach_receipt ViewOnlyPage.history
  SendToPage.return_to_rfp SendToPage.recipient_name_set SendToPage.search
  SendToPage.results_list SendToPage.results_select SendToPage.note_set SendToPage.send
  SearchPage.entry SearchPage.rfp_number_set SearchPage.search SearchPage.results_list
  SearchPage.results_select
  pageReqIdx addressBlock lineItemEntry lineItemLoop attachLoopStep receiptsLoop
  pageCancel pageRfpNumber pageSendTo create
  readLineItem readLineItems view
  mkDom constSession twoPhase renderedLineItemCount renderedHistoryCells
  lineFieldEvents lineEntryEvents lineEvents specRestTrace specLineItemTrace
  reimbursementUrl payeeSearchEvents rfpNameEvents saveCancelEvents
  recipientSearchEvents sendEvents addr4Events addr5Events addrNoRegionEvents
  c1dom c2dom c6dom0 c6dom1 c5dom c5res c7dom c7sess

/-! ## C3 -/

/-- C3 (amended): `create` with an address tuple of improper length (here
three elements) fails with the length error `IndexError`, but only after
the payee search, the payee-result selection and the RFP-name entry have
already driven the browser (navigation, clicks and field entry): the trace
at the failure holds exactly those eight events and touches no address
field. -/
theorem address_length_checked_after_payee_steps
    (nm pn x1 x2 x3 : String) :
    (create nm (some (false, pn)) (some [x1, x2, x3]) [] "" [] none
        (constSession (mkDom {}))).1
      = .error (.indexError "address has an improper length.") ∧
    (create nm (some (false, pn)) (some [x1, x2, x3]) [] "" [] none
        (constSession (mkDom {}))).2.trace
      = payeeSearchEvents pn ++ rfpNameEvents nm :=
  ⟨rfl, rfl⟩

/-- Counterexample for C3 as stated: at a concrete call with a 3-element
address, `create` does fail with the length error, but the trace at the
failure already contains a navigation (and further browser events), so the
rejection does not happen "before any browser interaction occurs". -/
theorem address_length_error_after_browser_interaction :
    (create "N" (some (false, "P")) (some ["a", "b", "c"]) [] "" [] none
        (constSession (mkDom {}))).1
      = .error (.indexError "address has an improper length.") ∧
    Event.navigate reimbursementUrl ∈
      (create "N" (some (false, "P")) (some ["a", "b", "c"]) [] "" [] none
        (constSession (mkDom {}))).2.trace := by
  constructor
  · rfl
  · show Event.navigate reimbursementUrl ∈ payeeSearchEvents "P" ++ rfpNameEvents "N"
    simp

/-! ## C4 -/

/-- C4 (amended): with an address given, `create` sets country, address
line, city, state, postal code in that order; a 4-element address never
touches a state field (the unbound `state` local raises a caught
`NameError`) and proceeds to the postal code; a 5-element address does set
the state field; but when the page has no state field, a 5-element address
makes `create` fail with an uncaught no-such-element condition before the
postal code is ever set — the `except NameError` clause does not tolerate a
missing state field. -/
theorem address_field_order_and_state_handling (nm pn : String) :
    ((create nm (some (false, pn)) (some ["17 Main St", "Cambridge", "02139", "US"])
        [] "" [] none (constSession (mkDom {}))).1 = .ok "1234567" ∧
     (create nm (some (false, pn)) (some ["17 Main St", "Cambridge", "02139", "US"])
        [] "" [] none (constSession (mkDom {}))).2.trace
       = payeeSearchEvents pn ++ rfpNameEvents nm ++ addr4Events ++ saveCancelEvents "") ∧
    ((create nm (some (false, pn)) (some ["17 Main St", "Cambridge", "MA", "02139", "US"])
        [] "" [] none (constSession (mkDom {}))).1 = .ok "1234567" ∧
     (create nm (some (false, pn)) (some ["17 Main St", "Cambridge", "MA", "02139", "US"])
        [] "" [] none (constSession (mkDom {}))).2.trace
       = payeeSearchEvents pn ++ rfpNameEvents nm ++ addr5Events ++ saveCancelEvents "") ∧
    ((create nm (some (false, pn)) (some ["17 Main St", "Cambridge", "MA", "02139", "US"])
        [] "" [] none (constSession (mkDom { hasRegion := false }))).1
       = .error .noSuchElement ∧
     (create nm (some (false, pn)) (some ["17 Main St", "Cambridge", "MA", "02139", "US"])
        [] "" [] none (constSession (mkDom { hasRegion := false }))).2.trace
       = payeeSearchEvents pn ++ rfpNameEvents nm ++ addrNoRegionEvents) := by
  refine ⟨⟨?_, ?_⟩, ⟨?_, ?_⟩, ⟨?_, ?_⟩⟩ <;> simp

/-- Counterexample for C4 as stated: with a 5-element address on a page
lacking the state field, `create` fails with the no-such-element condition
and never reaches the postal-code step, refuting "absence is tolerated ...
and create proceeds to set the postal code". -/
theorem missing_state_field_not_tolerated :
    (create "N" (some (false, "P")) (some ["17 Main St", "Cambridge", "MA", "02139", "US"])
        [] "" [] none (constSession (mkDom { hasRegion := false }))).1
      = .error .noSuchElement ∧
    Event.clear "#zip2" ∉
      (create "N" (some (false, "P")) (some ["17 Main St", "Cambridge", "MA", "02139", "US"])
        [] "" [] none (constSession (mkDom { hasRegion := false }))).2.trace := by
  constructor
  · simp
  · simp

/-! ## C6 -/

/-- C6: `_select`'s set form accepts either the option value or the display
text.  When the input matches an option value, it is translated to that
option's (stripped) display text; either way the text plus a Tab is sent,
and the trailing assertion guarantees that the following get returns the
normalized selection.  Consequently set-then-get round-trips to the same
observed display text for both input forms of the same option, sending
identical keys in both cases. -/
theorem select_set_roundtrip
    (s : Session) (frag v : String) (o c sel : Elem)
    (hopt : (s.script s.time).css (selectOptionSel frag v) = some o)
    (hsel : (s.script s.time).css ("select" ++ frag) = some sel)
    (hnc : (s.script s.time).css (selectOptionSel frag (strip o.text)) = none)
    (hck : (s.script (s.time + 1)).css ("select" ++ frag ++ " option:checked") = some c)
    (hct : strip c.text = strip o.text) :
    ((select_set frag v >>= fun _ => select_get frag) s
        = (.ok (strip o.text),
           { s with time := s.time + 1,
                    trace := s.trace ++ [Event.sendKeys ("select" ++ frag) (strip o.text ++ "\t")] })) ∧
    ((select_set frag (strip o.text) >>= fun _ => select_get frag) s
        = (.ok (strip o.text),
           { s with time := s.time + 1,
                    trace := s.trace ++ [Event.sendKeys ("select" ++ frag) (strip o.text ++ "\t")] })) := by
  constructor
  · simp only [select_set, select_get, run_bind, run_attempt, run_findCss, hopt, hsel,
      run_mpure, run_emit, hck, hct, run_massert, beq_self_eq_true, if_true]
  · simp only [select_set, select_get, run_bind, run_attempt, run_findCss, hnc, hsel,
      run_mpure, run_emit, hck, hct, run_massert, beq_self_eq_true, if_true]

/-- Witness for C6: a select whose option with value "CO" displays
" Company X ": setting by value "CO" and setting by display text
"Company X" both round-trip to the observed text "Company X", sending the
same keys. -/
theorem select_set_roundtrip_witness :
    ((select_set "#coCode" "CO" >>= fun _ => select_get "#coCode") (twoPhase c6dom0 c6dom1)
       = (.ok "Company X",
          { twoPhase c6dom0 c6dom1 with
              time := 1, trace := [Event.sendKeys "select#coCode" "Company X\t"] })) ∧
    ((select_set "#coCode" "Company X" >>= fun _ => select_get "#coCode") (twoPhase c6dom0 c6dom1)
       = (.ok "Company X",
          { twoPhase c6dom0 c6dom1 with
              time := 1, trace := [Event.sendKeys "select#coCode" "Company X\t"] })) := by
  have h := select_set_roundtrip (twoPhase c6dom0 c6dom1) "#coCode" "CO"
    ⟨" Company X ", "", true, false⟩ ⟨"Company X  ", "", true, false⟩ ⟨"", "", true, false⟩
    rfl rfl rfl rfl (by decide)
  exact ⟨h.1, h.2⟩

/-! ## C7 -/

/-- C7: in `create`, the payee search and the send-to recipient search each
require exactly one result.  With zero or with two payee results, `create`
fails the assertion right after the search, leaving exactly the five
payee-search events (no further navigation); with a unique payee but zero
or two recipients, it fails the assertion right after the recipient-search
click; with unique results on both searches it proceeds through the
corresponding transitions and completes, returning the RFP number. -/
theorem create_unique_search_result_assertions
    (a b r r2 : Elem) (nm pn rec note : String) :
    ((create nm (some (false, pn)) none [] "" [] (some (rec, note)) (c7sess [] [r])).1
        = .error .assertionError ∧
     (create nm (some (false, pn)) none [] "" [] (some (rec, note)) (c7sess [] [r])).2.trace
        = payeeSearchEvents pn) ∧
    ((create nm (some (false, pn)) none [] "" [] (some (rec, note)) (c7sess [a, b] [r])).1
        = .error .assertionError ∧
     (create nm (some (false, pn)) none [] "" [] (some (rec, note)) (c7sess [a, b] [r])).2.trace
        = payeeSearchEvents pn) ∧
    ((create nm (some (false, pn)) none [] "" [] (some (rec, note)) (c7sess [a] [])).1
        = .error .assertionError ∧
     (create nm (some (false, pn)) none [] "" [] (some (rec, note)) (c7sess [a] [])).2.trace
        = payeeSearchEvents pn ++ rfpNameEvents nm ++ saveCancelEvents ""
            ++ recipientSearchEvents rec) ∧
    ((create nm (some (false, pn)) none [] "" [] (some (rec, note)) (c7sess [a] [r, r2])).1
        = .error .assertionError ∧
     (create nm (some (false, pn)) none [] "" [] (some (rec, note)) (c7sess [a] [r, r2])).2.trace
        = payeeSearchEvents pn ++ rfpNameEvents nm ++ saveCancelEvents ""
            ++ recipientSearchEvents rec) ∧
    ((create nm (some (false, pn)) none [] "" [] (some (rec, note)) (c7sess [a] [r])).1
        = .ok "1234567" ∧
     (create nm (some (false, pn)) none [] "" [] (some (rec, note)) (c7sess [a] [r])).2.trace
        = payeeSearchEvents pn ++ rfpNameEvents nm ++ saveCancelEvents ""
            ++ recipientSearchEvents rec ++ sendEvents note) := by
  refine ⟨⟨?_, ?_⟩, ⟨?_, ?_⟩, ⟨?_, ?_⟩, ⟨?_, ?_⟩, ⟨?_, ?_⟩⟩ <;> simp

/-! ## C9 -/

@[simp] theorem c9dom_css (sel : String) : c9dom.css sel = some {} := rfl

@[simp] theorem c9dom_title : c9dom.title = "RFP Reimbursement" := rfl

@[simp] theorem c9dom_xpath (xp : String) : c9dom.xpath xp = some { text := "1234567" } := rfl

@[simp] theorem c9dom_cssAll_err : c9dom.cssAll ".portlet-msg-error" = [] := rfl

@[simp] theorem c9dom_cssAll_jq : c9dom.cssAll "label.jqerror" = [] := rfl

@[simp] theorem c9dom_cssAll_mit :
    c9dom.cssAll "#mit a" = [{ text := "One Payee (kerb,dept)" }] := rfl

@[simp] theorem c9dom_cssAll_dialog :
    c9dom.cssAll ".ui-dialog button" = [{ text := "Cancel" }, { text := "Attach" }] := rfl

/-- Running one line-item loop pass in the benign environment records
exactly its entry events. -/
theorem lineItemEntry_run (li : LineItem) (i t : Nat) (tr : List Event) :
    lineItemEntry i li ⟨fun _ => c9dom, t, tr⟩
      = (.ok (), ⟨fun _ => c9dom, t + (lineEntryEvents i li).length,
                  tr ++ lineEntryEvents i li⟩) := by
  by_cases hi : i > 0
  · simp [hi, Session.mk.injEq, List.append_assoc]
  · simp [hi, Session.mk.injEq, List.append_assoc]

/-- Running the whole line-item loop in the benign environment records
exactly `lineEvents`. -/
theorem lineItemLoop_run (items : List LineItem) : ∀ (i t : Nat) (tr : List Event),
    lineItemLoop i items ⟨fun _ => c9dom, t, tr⟩
      = (.ok (), ⟨fun _ => c9dom, t + (lineEvents i items).length,
                  tr ++ lineEvents i items⟩) := by
  induction items with
  | nil => intro i t tr; simp [lineItemLoop, lineEvents]
  | cons li rest ih =>
      intro i t tr
      rw [lineItemLoop, run_bind, lineItemEntry_run]
      dsimp only
      rw [ih]
      simp [lineEvents, Session.mk.injEq, List.append_assoc, Nat.add_assoc]
      omega

/-- The field-entry events of one line item contain no "add line" click. -/
theorem count_addLine_fieldEvents (i : Nat) (li : LineItem) :
    (lineFieldEvents i li).count (Event.click "#addLine") = 0 := by
  simp [lineFieldEvents, List.count_cons]

/-- Counting "add line" clicks in the loop events: one per item when the
counter starts positive, one per item after the first when it starts at
zero. -/
theorem lineEvents_count_aux :
    ∀ (items : List LineItem) (i : Nat),
      (lineEvents i items).count (Event.click "#addLine")
        = if i = 0 then items.length - 1 else items.length := by
  intro items
  induction items with
  | nil => intro i; simp [lineEvents]
  | cons li rest ih =>
      intro i
      rcases Nat.eq_zero_or_pos i with hi | hi
      · subst hi
        simp [lineEvents, lineEntryEvents, List.count_append, count_addLine_fieldEvents,
          ih 1]
      · have hne : i ≠ 0 := Nat.pos_iff_ne_zero.mp hi
        simp [lineEvents, lineEntryEvents, hi, hne, List.count_append,
          count_addLine_fieldEvents, ih (i + 1), List.count_cons]

/-- Started at a positive counter, the loop events are exactly the
spec-side "one add-line click, then the five fields" blocks. -/
theorem lineEvents_spec_aux :
    ∀ (items : List LineItem) (i : Nat), 0 < i →
      lineEvents i items = specRestTrace i items := by
  intro items
  induction items with
  | nil => intro i _; simp [lineEvents, specRestTrace]
  | cons li rest ih =>
      intro i hi
      simp [lineEvents, specRestTrace, lineEntryEvents, hi, ih (i + 1) (Nat.succ_pos i)]

/-- The loop events started at zero are exactly the spec-side trace: the
first item uses the default row, each later item is preceded by exactly one
add-line click before its five field entries. -/
theorem lineEvents_spec (items : List LineItem) :
    lineEvents 0 items = specLineItemTrace items := by
  cases items with
  | nil => simp [lineEvents, specLineItemTrace]
  | cons li rest =>
      simp [lineEvents, specLineItemTrace, lineEntryEvents,
        lineEvents_spec_aux rest 1 Nat.one_pos]

/-- The complete `create` run in the benign environment, for any line-item
list. -/
theorem create_run_c9 (items : List LineItem) (nm pn : String) :
    create nm (some (false, pn)) none items "" [] none (constSession c9dom)
      = (.ok "1234567",
         ⟨fun _ => c9dom, 12 + (lineEvents 0 items).length,
          payeeSearchEvents pn ++ rfpNameEvents nm ++ lineEvents 0 items
            ++ saveCancelEvents ""⟩) := by
  simp
  rw [lineItemLoop_run]
  simp [Session.mk.injEq, List.append_assoc, Nat.add_comm, Nat.add_left_comm, Nat.add_assoc]
  omega

/-- C9: `create` with a list of N line items clicks "add line" exactly N-1
times: the run completes in the benign environment with the loop's events
in place, the add-line click count over those events is N-1, and the events
form the spec-side blocks — the first item entered into the default row,
each subsequent item preceded by exactly one add-line click before its five
field entries. -/
theorem line_item_add_line_count (items : List LineItem) (nm pn : String) :
    (create nm (some (false, pn)) none items "" [] none (constSession c9dom)).1
      = .ok "1234567" ∧
    (create nm (some (false, pn)) none items "" [] none (constSession c9dom)).2.trace
      = payeeSearchEvents pn ++ rfpNameEvents nm ++ lineEvents 0 items
          ++ saveCancelEvents "" ∧
    (lineEvents 0 items).count (Event.click "#addLine") = items.length - 1 ∧
    lineEvents 0 items = specLineItemTrace items := by
  refine ⟨?_, ?_, ?_, lineEvents_spec items⟩
  · rw [create_run_c9]
  · rw [create_run_c9]
  · have h := lineEvents_count_aux items 0
    simpa using h

/-! ## C5 -/

/-- Inversion for a successful bind. -/
theorem bind_eq_ok {α β : Type} {x : M α} {f : α → M β} {s s₂ : Session} {b : β}
    (h : (x >>= f) s = (.ok b, s₂)) :
    ∃ a s₁, x s = (.ok a, s₁) ∧ f a s₁ = (.ok b, s₂) := by
  rcases hx : x s with ⟨r, s₁⟩
  rw [run_bind, hx] at h
  cases r with
  | ok a => exact ⟨a, s₁, rfl, h⟩
  | error e => exact absurd h (by simp)

/-- Binding two session-preserving programs preserves the session. -/
theorem snd_bind {α β : Type} {x : M α} {f : α → M β}
    (hx : ∀ s, (x s).2 = s) (hf : ∀ a s, (f a s).2 = s) (s : Session) :
    ((x >>= f) s).2 = s := by
  rcases hxs : x s with ⟨r, s₁⟩
  have h1 : s₁ = s := by have hh := hx s; rw [hxs] at hh; exact hh
  rw [run_bind, hxs]
  cases r with
  | ok a => rw [h1]; exact hf a s
  | error e => exact h1

/-- A `try/except` of session-preserving programs preserves the session. -/
theorem snd_attempt {α : Type} {x : M α} {sel : Err → Bool} {hnd : M α}
    (hx : ∀ s, (x s).2 = s) (hh : ∀ s, (hnd s).2 = s) (s : Session) :
    (M.attempt x sel hnd s).2 = s := by
  rcases hxs : x s with ⟨r, s₁⟩
  have h1 : s₁ = s := by have hh := hx s; rw [hxs] at hh; exact hh
  rw [run_attempt, hxs]
  cases r with
  | ok a => exact h1
  | error e =>
      dsimp only
      by_cases hc : sel e = true
      · rw [if_pos hc, h1]; exact hh s
      · rw [if_neg hc]; exact h1

theorem snd_findCss (sel : String) (s : Session) : (findCss sel s).2 = s := by
  rw [run_findCss]; cases (s.script s.time).css sel <;> rfl

theorem snd_findXpath (xp : String) (s : Session) : (findXpath xp s).2 = s := by
  rw [run_findXpath]; cases (s.script s.time).xpath xp <;> rfl

theorem snd_massert (b : Bool) (s : Session) : (massert b s).2 = s := by
  cases b <;> rfl

theorem snd_datalist (label : String) (s : Session) : (datalist label s).2 = s := by
  unfold datalist
  exact snd_bind (snd_findXpath _) (fun a s' => rfl) s

theorem snd_try_datalist (label : String) (s : Session) : (try_datalist label s).2 = s := by
  unfold try_datalist
  exact snd_attempt (snd_bind (snd_datalist _) (fun a s' => rfl)) (fun s' => rfl) s

theorem snd_line_item_cells (li : Nat) (s : Session) :
    (ViewOnlyPage.line_item_cells li s).2 = s := by
  unfold ViewOnlyPage.line_item_cells
  refine snd_bind (fun s' => rfl) (fun rows s' => ?_) s
  by_cases hl : li < rows.length <;> simp [hl]

theorem snd_line_item_cell (li j : Nat) (s : Session) :
    (ViewOnlyPage.line_item_cell li j s).2 = s := by
  unfold ViewOnlyPage.line_item_cell
  refine snd_bind (snd_line_item_cells li) (fun cs s' => ?_) s
  cases cs.get? j <;> rfl

theorem snd_explanation (li : Nat) (s : Session) :
    (ViewOnlyPage.explanation li s).2 = s := by
  unfold ViewOnlyPage.explanation
  refine snd_bind (fun s' => rfl) (fun rows s' => ?_) s
  by_cases hl : li < rows.length <;> simp [hl]
  cases ((s'.script s'.time).cssWithin ".lineItem" li "div.data.indent1").head? <;> rfl

theorem snd_readLineItem (i : Nat) (s : Session) : (readLineItem i s).2 = s := by
  unfold readLineItem
  exact snd_bind (snd_line_item_cell i 0) (fun d =>
    snd_bind (snd_line_item_cell i 1) (fun g =>
      snd_bind (snd_line_item_cell i 2) (fun c =>
        snd_bind (snd_line_item_cell i 3) (fun a =>
          snd_bind (snd_explanation i) (fun e s' => rfl))))) s

theorem snd_readLineItems : ∀ (l : List Nat) (s : Session), (readLineItems l s).2 = s := by
  intro l
  induction l with
  | nil => intro s; rfl
  | cons i rest ih =>
      intro s
      unfold readLineItems
      exact snd_bind (snd_readLineItem i) (fun li =>
        snd_bind ih (fun tail s' => rfl)) s

theorem snd_office_note (s : Session) : (ViewOnlyPage.office_note s).2 = s := by
  unfold ViewOnlyPage.office_note
  exact snd_attempt (snd_bind (snd_findXpath _) (fun a s' => rfl)) (fun s' => rfl) s

theorem snd_history (s : Session) : (ViewOnlyPage.history s).2 = s := by
  unfold ViewOnlyPage.history
  refine snd_bind (fun s' => rfl) (fun hs s' => ?_) s
  by_cases he : hs.isEmpty = true <;> simp [he]
  cases chunk3 (((s'.script s'.time).cssWithin ".topHeadersTable" (hs.length - 1) "td").map
    Elem.text) <;> rfl

/-- A successful `readLineItems` returns one record per index. -/
theorem readLineItems_length :
    ∀ {l : List Nat} {s : Session} {lis : List LineItem} {s₂ : Session},
      readLineItems l s = (.ok lis, s₂) → lis.length = l.length := by
  intro l
  induction l with
  | nil =>
      intro s lis s₂ h
      have h' : ((Except.ok ([] : List LineItem), s) : Except Err (List LineItem) × Session)
          = (.ok lis, s₂) := h
      obtain ⟨h1, -⟩ := Prod.mk.injEq .. |>.mp h'
      rw [← Except.ok.inj h1]
      rfl
  | cons i rest ih =>
      intro s lis s₂ h
      obtain ⟨li, s₁, h1, h⟩ := bind_eq_ok h
      obtain ⟨tail, s₃, h2, h⟩ := bind_eq_ok h
      have h' : ((Except.ok (li :: tail), s₃) : Except Err (List LineItem) × Session)
          = (.ok lis, s₂) := h
      obtain ⟨h1', -⟩ := Prod.mk.injEq .. |>.mp h'
      rw [← Except.ok.inj h1']
      simp [ih h2]

/-- A successful `chunk3` consumed a list whose length is exactly three per
produced row. -/
theorem chunk3_length :
    ∀ (l : List String) (r : List (String × String × String)),
      chunk3 l = .ok r → l.length = 3 * r.length
  | [], r, h => by
      have h' : Except.ok ([] : List (String × String × String)) = .ok r := h
      rw [← Except.ok.inj h']
      rfl
  | [d], r, h => absurd h (by simp [chunk3])
  | [d, t], r, h => absurd h (by simp [chunk3])
  | d :: t :: a :: rest, r, h => by
      rw [chunk3] at h
      rcases hr : chunk3 rest with e | r'
      · rw [hr] at h; exact absurd h (by simp [Except.map])
      · rw [hr] at h
        have h' : Except.ok ((d, t, a) :: r') = Except.ok r := h
        rw [← Except.ok.inj h']
        have := chunk3_length rest r' hr
        simp [this, Nat.mul_succ, Nat.mul_add]

/-- A successful `chunk3` takes the flat list three at a time: row `k` is
exactly the cells at positions `3k`, `3k+1`, `3k+2`. -/
theorem chunk3_getD :
    ∀ (l : List String) (r : List (String × String × String)),
      chunk3 l = .ok r → ∀ k, k < r.length →
        r.getD k ("", "", "") = (l.getD (3 * k) "", l.getD (3 * k + 1) "", l.getD (3 * k + 2) "")
  | [], r, h, k, hk => by
      have h' : Except.ok ([] : List (String × String × String)) = .ok r := h
      rw [← Except.ok.inj h'] at hk
      exact absurd hk (by simp)
  | [d], r, h, k, hk => absurd h (by simp [chunk3])
  | [d, t], r, h, k, hk => absurd h (by simp [chunk3])
  | d :: t :: a :: rest, r, h, k, hk => by
      rw [chunk3] at h
      rcases hr : chunk3 rest with e | r'
      · rw [hr] at h; exact absurd h (by simp [Except.map])
      · rw [hr] at h
        have h' : Except.ok ((d, t, a) :: r') = Except.ok r := h
        have hrr : r = (d, t, a) :: r' := (Except.ok.inj h').symm
        subst hrr
        cases k with
        | zero => simp
        | succ k =>
            have hk' : k < r'.length := by simpa using hk
            have ih := chunk3_getD rest r' hr k hk'
            have e1 : 3 * (k + 1) = 3 * k + 2 + 1 := by ring
            have e2 : 3 * (k + 1) + 1 = 3 * k + 2 + 1 + 1 := by ring
            have e3 : 3 * (k + 1) + 2 = 3 * k + 2 + 1 + 1 + 1 := by ring
            simp only [List.getD_cons_succ, e1, e2, e3]
            simpa using ih

/-- A successful `history` read parsed exactly the rendered history cells. -/
theorem history_ok {s : Session} {hist : List (String × String × String)} {s₂ : Session}
    (h : ViewOnlyPage.history s = (.ok hist, s₂)) :
    chunk3 (renderedHistoryCells s) = .ok hist := by
  unfold ViewOnlyPage.history at h
  obtain ⟨hs, s₁, hfa, hrest⟩ := bind_eq_ok h
  have hfa' : ((Except.ok ((s.script s.time).cssAll ".topHeadersTable"), s) :
      Except Err (List Elem) × Session) = (.ok hs, s₁) := hfa
  obtain ⟨ha, hb⟩ := Prod.mk.injEq .. |>.mp hfa'
  have hhs : hs = (s.script s.time).cssAll ".topHeadersTable" := (Except.ok.inj ha).symm
  have hb' : s₁ = s := hb.symm
  by_cases he : hs.isEmpty = true
  · rw [if_pos he] at hrest
    exact absurd hrest (by simp)
  · rw [if_neg he] at hrest
    obtain ⟨d, sd, hgd, hrest2⟩ := bind_eq_ok hrest
    have hgd' : ((Except.ok (s₁.script s₁.time), s₁) : Except Err Dom × Session)
        = (.ok d, sd) := hgd
    obtain ⟨hda, hdb⟩ := Prod.mk.injEq .. |>.mp hgd'
    have hdd : d = s₁.script s₁.time := (Except.ok.inj hda).symm
    dsimp only at hrest2
    rcases hc : chunk3 ((d.cssWithin ".topHeadersTable" (hs.length - 1) "td").map Elem.text)
      with e | l
    · rw [hc] at hrest2
      exact absurd hrest2 (by simp)
    · rw [hc] at hrest2
      have hl' : ((Except.ok l, sd) : Except Err (List (String × String × String)) × Session)
          = (.ok hist, s₂) := hrest2
      obtain ⟨hla, -⟩ := Prod.mk.injEq .. |>.mp hl'
      have hlh : l = hist := Except.ok.inj hla
      subst hlh
      rw [hdd, hhs, hb'] at hc
      exact hc

/-- C5: a successful `view` returns a result whose `line_items` list has
exactly one record per rendered line-item row, and whose `history` is the
rendered history cells taken three at a time — every history entry is a
(date, time, action) triple drawn from positions `3k`, `3k+1`, `3k+2` of
the flat cell sequence. -/
theorem view_line_items_and_history_shape
    (num : String) (s s' : Session) (r : ViewResult)
    (h : view num s = (.ok r, s')) :
    r.line_items.length = renderedLineItemCount s' ∧
    3 * r.history.length = (renderedHistoryCells s').length ∧
    (∀ k, k < r.history.length →
      r.history.getD k ("", "", "") =
        ((renderedHistoryCells s').getD (3 * k) "",
         (renderedHistoryCells s').getD (3 * k + 1) "",
         (renderedHistoryCells s').getD (3 * k + 2) "")) := by
  unfold view at h
  obtain ⟨_, s1, -, h01⟩ := bind_eq_ok h
  obtain ⟨_, s2, -, h02⟩ := bind_eq_ok h01
  obtain ⟨page, s3, -, h03⟩ := bind_eq_ok h02
  obtain ⟨_, s4, -, h04⟩ := bind_eq_ok h03
  obtain ⟨inbox, s5, -, h05⟩ := bind_eq_ok h04
  obtain ⟨num0, s6, -, h06⟩ := bind_eq_ok h05
  obtain ⟨_, s7, -, h07⟩ := bind_eq_ok h06
  obtain ⟨payee, s8, -, h08⟩ := bind_eq_ok h07
  obtain ⟨cc, s9, -, h09⟩ := bind_eq_ok h08
  obtain ⟨rn, s10, -, h10⟩ := bind_eq_ok h09
  obtain ⟨rt, s11, -, h11⟩ := bind_eq_ok h10
  obtain ⟨pm, s12, -, h12⟩ := bind_eq_ok h11
  obtain ⟨mi, s13, -, h13⟩ := bind_eq_ok h12
  obtain ⟨ad, s14, -, h14⟩ := bind_eq_ok h13
  obtain ⟨ph, s15, -, h15⟩ := bind_eq_ok h14
  obtain ⟨addr, s16, -, h16⟩ := bind_eq_ok h15
  obtain ⟨ci, s17, -, h17⟩ := bind_eq_ok h16
  obtain ⟨st, s18, -, h18⟩ := bind_eq_ok h17
  obtain ⟨pc, s19, -, h19⟩ := bind_eq_ok h18
  obtain ⟨co, s20, -, h20⟩ := bind_eq_ok h19
  obtain ⟨tt, s21, -, h21⟩ := bind_eq_ok h20
  obtain ⟨sn, s22, -, h22⟩ := bind_eq_ok h21
  obtain ⟨n, s23, hn, h23⟩ := bind_eq_ok h22
  obtain ⟨lis, s24, hlis, h24⟩ := bind_eq_ok h23
  obtain ⟨note, s25, hnote, h25⟩ := bind_eq_ok h24
  obtain ⟨hist, s26, hhist, h26⟩ := bind_eq_ok h25
  have hn' : ((Except.ok ((s22.script s22.time).cssAll ".lineItem").length, s22) :
      Except Err Nat × Session) = (.ok n, s23) := hn
  obtain ⟨hna, hnb⟩ := Prod.mk.injEq .. |>.mp hn'
  have hn2 : n = ((s22.script s22.time).cssAll ".lineItem").length :=
    (Except.ok.inj hna).symm
  have e23 : s23 = s22 := hnb.symm
  subst e23
  have e24 : s24 = s23 := by
    have hh := snd_readLineItems (List.range n) s23
    rw [hlis] at hh
    exact hh
  subst e24
  have e25 : s25 = s24 := by
    have hh := snd_office_note s24
    rw [hnote] at hh
    exact hh
  subst e25
  have e26 : s26 = s25 := by
    have hh := snd_history s25
    rw [hhist] at hh
    exact hh
  subst e26
  rw [run_mpure] at h26
  obtain ⟨hra, hrb⟩ := Prod.mk.injEq .. |>.mp h26
  have er : s' = s26 := hrb.symm
  subst er
  have hr : r = _ := (Except.ok.inj hra).symm
  subst hr
  have hchunk := history_ok hhist
  have hlen := chunk3_length _ _ hchunk
  refine ⟨?_, ?_, ?_⟩
  · have hl := readLineItems_length hlis
    simp only [List.length_range] at hl
    simpa [renderedLineItemCount, hn2] using hl
  · simpa using hlen.symm
  · intro k hk
    simpa using chunk3_getD _ _ hchunk k (by simpa using hk)

/-- Witness for C5: a concrete resolved RFP page with two line-item rows
and six history cells — `view` succeeds, its result has two line items
matching the two rendered rows, and its two history entries are the six
cells taken three at a time. -/
theorem view_line_items_and_history_shape_witness :
    c5res.line_items.length = renderedLineItemCount c5final ∧
    3 * c5res.history.length = (renderedHistoryCells c5final).length ∧
    c5res.history.getD 0 ("", "", "") =
      ((renderedHistoryCells c5final).getD 0 "",
       (renderedHistoryCells c5final).getD 1 "",
       (renderedHistoryCells c5final).getD 2 "") ∧
    c5res.history.getD 1 ("", "", "") =
      ((renderedHistoryCells c5final).getD 3 "",
       (renderedHistoryCells c5final).getD 4 "",
       (renderedHistoryCells c5final).getD 5 "") := by
  have hrun : view "1234567" (constSession c5dom) = (.ok c5res, c5final) := by
    simp [c5final, Except.map]
  have h := view_line_items_and_history_shape "1234567" (constSession c5dom) c5final c5res hrun
  refine ⟨h.1, h.2.1, ?_, ?_⟩
  · simpa using h.2.2 0 (by simp [c5res])
  · simpa using h.2.2 1 (by simp [c5res])

end Pysapweb
